import Mathlib

/-!
# Verification of the winpods desktop shell

A shallow embedding, in Lean 4, of the winpods desktop shell
(`apps/desktop-ui`): the battery-bar renderer and ASCII font fitting of
`src/App.tsx`, the Electron main-process backend lifecycle and IPC handlers
of the main process script, and the preload bridge of
`electron/preload.cjs`.  JavaScript numbers are modelled as rationals
(`ℚ`), fallible operations as `Option`, and the file system as explicit
state.  The Rust backend (`crates/desktop`) is not part of the available
sources; where a property concerns it (low-battery alert policy, atomic
snapshot publication) the component is modelled from the specification, as
marked on the corresponding definition.
-/

/-- JavaScript `Math.round`: rounds half toward positive infinity,
`Math.round(x) = ⌊x + 1/2⌋`. -/
def jsRound (x : ℚ) : ℤ := ⌊x + 1 / 2⌋

/-- JavaScript `"c".repeat(n)` for a one-character string. -/
def repeatChar (c : Char) (n : ℕ) : String := String.mk (List.replicate n c)

/-- Embedding of `batteryBar` (App.tsx lines 15–19): clamp the level to
[0, 100], fill `Math.round(clamped / 10)` of ten cells with `#`, the rest
with `.`, and surround with brackets. -/
def batteryBar (level : ℚ) : String :=
  let clamped := max 0 (min 100 level)
  let filled := (jsRound (clamped / 10)).toNat
  "[" ++ repeatChar '#' filled ++ repeatChar '.' (10 - filled) ++ "]"

/-- The clamp `max 0 (min 100 ·)` used by `batteryBar` is idempotent. -/
lemma clamp_idem (x : ℚ) :
    max 0 (min 100 (max 0 (min 100 x))) = max 0 (min 100 x) := by
  have h0 : (0 : ℚ) ≤ max 0 (min 100 x) := le_max_left _ _
  have h100 : max 0 (min 100 x) ≤ 100 :=
    max_le (by norm_num) (min_le_left _ _)
  rw [min_eq_right h100, max_eq_right h0]

lemma length_repeatChar (c : Char) (n : ℕ) : (repeatChar c n).length = n := by
  simp [repeatChar, String.length]

/-- The number of filled cells is at most 10 for every level. -/
lemma filled_le_ten (level : ℚ) :
    (jsRound (max 0 (min 100 level) / 10)).toNat ≤ 10 := by
  have h100 : max 0 (min 100 level) ≤ 100 :=
    max_le (by norm_num) (min_le_left _ _)
  have h : max 0 (min 100 level) / 10 + 1 / 2 < ((11 : ℤ) : ℚ) := by
    push_cast
    linarith
  have h2 : jsRound (max 0 (min 100 level) / 10) < 11 := Int.floor_lt.mpr h
  omega

lemma batteryBar_zero : batteryBar 0 = "[..........]" := by
  have h1 : max (0 : ℚ) (min 100 0) / 10 = 0 := by norm_num
  have h2 : jsRound 0 = 0 := by
    unfold jsRound
    norm_num
  simp only [batteryBar, h1, h2]
  rfl

lemma batteryBar_hundred : batteryBar 100 = "[##########]" := by
  have h1 : max (0 : ℚ) (min 100 100) / 10 = 10 := by norm_num
  have h2 : jsRound 10 = 10 := by
    unfold jsRound
    norm_num
  simp only [batteryBar, h1, h2]
  rfl

/-- C1.  For every battery level in [0, 100], `batteryBar` returns a
bracketed bar of fixed width: 10 cells between `[` and `]`, 12 characters
in total; level 0 renders the fully empty bar and level 100 the fully
filled one. -/
theorem batteryBar_fixed_width (level : ℚ)
    (_h0 : 0 ≤ level) (_h1 : level ≤ 100) :
    (batteryBar level).length = 12 ∧
    batteryBar 0 = "[..........]" ∧
    batteryBar 100 = "[##########]" := by
  refine ⟨?_, batteryBar_zero, batteryBar_hundred⟩
  have hf := filled_le_ten level
  simp only [batteryBar, String.length_append, length_repeatChar]
  have hl : ("[" : String).length = 1 := rfl
  have hr : ("]" : String).length = 1 := rfl
  rw [hl, hr]
  omega

/-- Witness for C1 at level 30. -/
theorem batteryBar_fixed_width_witness :
    (batteryBar 30).length = 12 ∧
    batteryBar 0 = "[..........]" ∧
    batteryBar 100 = "[##########]" :=
  batteryBar_fixed_width 30 (by norm_num) (by norm_num)

/-- C2.  For every rational level, `batteryBar level` equals `batteryBar`
of the clamped value `max 0 (min 100 level)`; in particular negative
levels render like 0 and levels above 100 render like 100. -/
theorem batteryBar_clamp (level : ℚ) :
    batteryBar level = batteryBar (max 0 (min 100 level)) ∧
    (level < 0 → batteryBar level = batteryBar 0) ∧
    (100 < level → batteryBar level = batteryBar 100) := by
  refine ⟨?_, ?_, ?_⟩
  · simp only [batteryBar, clamp_idem]
  · intro h
    have hmin : min 100 level = level := min_eq_right (by linarith)
    have hmax : max 0 (min 100 level) = 0 := by
      rw [hmin]; exact max_eq_left (by linarith)
    simp only [batteryBar, hmax]
    norm_num
  · intro h
    have hmin : min 100 level = 100 := min_eq_left (by linarith)
    have hmax : max 0 (min 100 level) = 100 := by
      rw [hmin]; norm_num
    simp only [batteryBar, hmax]
    norm_num

/-- Witness for C2 at level -7: a negative level renders as level 0. -/
theorem batteryBar_clamp_witness : batteryBar (-7) = batteryBar 0 :=
  (batteryBar_clamp (-7)).2.1 (by norm_num)

/-! ## Published state document (vite-env.d.ts `BackendData` schema) -/

/-- Adapter state of the published document: `"on" | "off"`. -/
inductive AdapterState where
  | on
  | off
deriving DecidableEq

/-- Connection state of the published device: `"connected" | "disconnected"`. -/
inductive ConnectionState where
  | connected
  | disconnected
deriving DecidableEq

/-- One battery reading: `{ level: number; charging: boolean }`. -/
structure BatteryReading where
  level : ℚ
  charging : Bool
deriving DecidableEq

/-- The `device` field of the published document. -/
structure DeviceIdentity where
  deviceId : String
  name : String
  address : ℤ
  model : String
  connectionState : ConnectionState
deriving DecidableEq

/-- The `properties` field of the published document.  `caseBattery?` may
be absent or `null`; both are falsy in the renderer, so both are `none`. -/
structure DeviceProperties where
  model : String
  leftBattery : BatteryReading
  rightBattery : BatteryReading
  caseBattery : Option BatteryReading
  leftInEar : Bool
  rightInEar : Bool
deriving DecidableEq

/-- The `settings` field of the published document. -/
structure SettingsDoc where
  autoStart : Bool
  autoUpdate : Bool
  lowBatteryThreshold : ℚ
  earDetection : Bool
deriving DecidableEq

/-- The whole published state document (`BackendData`). -/
structure BackendDoc where
  updatedAtEpochMs : ℤ
  adapterState : AdapterState
  device : Option DeviceIdentity
  properties : Option DeviceProperties
  settings : SettingsDoc
  lowBatteryAlerted : Bool
deriving DecidableEq

/-- A concrete document used to instantiate quantified theorems. -/
def sampleDoc : BackendDoc :=
  { updatedAtEpochMs := 0
    adapterState := AdapterState.on
    device := none
    properties := none
    settings := { autoStart := false, autoUpdate := false,
                  lowBatteryThreshold := 20, earDetection := false }
    lowBatteryAlerted := false }

/-! ## BATTERY window rendering (App.tsx lines 192–214) -/

/-- Text of one battery row:
``${batteryBar(b.level)} ${b.level}%${b.charging ? " CHG" : ""}``. -/
def batteryRowText (b : BatteryReading) : String :=
  batteryBar b.level ++ " " ++ toString b.level ++ "%" ++
    (if b.charging then " CHG" else "")

/-- The label/value rows of the BATTERY window.  With `properties` null the
fallback text is shown and no rows render; otherwise Left and Right always
render, and the Case row renders exactly when `props.caseBattery` is
truthy (present and non-null). -/
def batteryRows (props : Option DeviceProperties) : List (String × String) :=
  match props with
  | none => []
  | some p =>
    [("Left", batteryRowText p.leftBattery),
     ("Right", batteryRowText p.rightBattery)] ++
      (match p.caseBattery with
       | some cb => [("Case", batteryRowText cb)]
       | none => [])

/-- C6.  Case-battery absence is distinguished from level 0: with
`caseBattery` null or absent no Case row renders; with `caseBattery`
present — including level 0 — the Case row renders with its bar and
percentage text. -/
theorem caseRow_absence_vs_zero (p : DeviceProperties) :
    (p.caseBattery = none →
      ∀ row ∈ batteryRows (some p), row.1 ≠ "Case") ∧
    (∀ cb, p.caseBattery = some cb →
      ("Case", batteryRowText cb) ∈ batteryRows (some p)) := by
  constructor
  · intro hnone row hrow
    simp only [batteryRows, hnone, List.append_nil, List.mem_cons,
      List.mem_singleton, List.not_mem_nil, or_false] at hrow
    rcases hrow with h | h <;> subst h <;> simp
  · intro cb hsome
    simp [batteryRows, hsome]

/-- Witness for C6: a properties object whose case battery has level 0
still renders a Case row. -/
theorem caseRow_absence_vs_zero_witness :
    ("Case", batteryRowText ⟨0, false⟩) ∈
      batteryRows (some
        { model := "airpodspro2"
          leftBattery := ⟨50, false⟩
          rightBattery := ⟨50, false⟩
          caseBattery := some ⟨0, false⟩
          leftInEar := false
          rightInEar := false }) :=
  (caseRow_absence_vs_zero _).2 ⟨0, false⟩ rfl

/-! ## The `backend:data` IPC handler (Electron main process)

The handler checks `fs.existsSync(statePath)`, then reads and
`JSON.parse`s the file inside a `try`/`catch` that returns `null`.  The
file system is modelled explicitly; `fs.readFileSync` throwing is the
`unreadable` state, and `JSON.parse` — a platform library, not repository
code — is modelled as an abstract total function returning `Option`
(`none` exactly when `JSON.parse` would throw). -/

/-- Observable states of the `state.json` path. -/
inductive FileState where
  | absent
  | unreadable
  | content (raw : String)
deriving DecidableEq

/-- Embedding of `ipcMain.handle("backend:data", ...)`: null when the file
does not exist; otherwise read and parse, catching any failure as null. -/
def backendDataHandler (parse : String → Option BackendDoc) :
    FileState → Option BackendDoc
  | FileState.absent => none
  | FileState.unreadable => none
  | FileState.content raw => parse raw

/-- C3.  `data()` returns the last published document when the state file
exists (and holds a document that parses), and null when no document has
been published yet (the file does not exist). -/
theorem backendData_last_published (parse : String → Option BackendDoc)
    (raw : String) (doc : BackendDoc) (hparse : parse raw = some doc) :
    backendDataHandler parse FileState.absent = none ∧
    backendDataHandler parse (FileState.content raw) = some doc :=
  ⟨rfl, hparse⟩

/-- Witness for C3 with a concrete parse function and document. -/
theorem backendData_last_published_witness :
    backendDataHandler (fun _ => some sampleDoc) FileState.absent = none ∧
    backendDataHandler (fun _ => some sampleDoc)
      (FileState.content "doc") = some sampleDoc :=
  backendData_last_published (fun _ => some sampleDoc) "doc" sampleDoc rfl

/-- C9.  `data()` never throws: an unreadable file and content that fails
to parse both yield null, and a document is returned only when the content
parses to it. -/
theorem backendData_never_throws (parse : String → Option BackendDoc)
    (raw : String) :
    backendDataHandler parse FileState.unreadable = none ∧
    (parse raw = none →
      backendDataHandler parse (FileState.content raw) = none) ∧
    (∀ d, backendDataHandler parse (FileState.content raw) = some d →
      parse raw = some d) :=
  ⟨rfl, fun h => h, fun _ h => h⟩

/-- Witness for C9 with an always-failing parse function. -/
theorem backendData_never_throws_witness :
    backendDataHandler (fun _ => none) FileState.unreadable = none ∧
    backendDataHandler (fun _ => none) (FileState.content "junk") = none :=
  ⟨(backendData_never_throws (fun _ => none) "junk").1,
   (backendData_never_throws (fun _ => none) "junk").2.1 rfl⟩

/-! ## Electron main process: backend lifecycle and control surface -/

/-- Status object returned over IPC: `{ running: boolean }`. -/
structure BackendStatus where
  running : Bool
deriving DecidableEq

/-- The main process state relevant to the backend lifecycle: the module
variable `backendProcess` (null when no child process handle is held), and
a supply of fresh process handles standing in for `spawn`. -/
structure MainState where
  backendProcess : Option ℕ
  nextPid : ℕ
deriving DecidableEq

/-- Embedding of `startBackend`: return early if a handle is already held,
otherwise spawn a fresh child process and hold its handle. -/
def startBackend (s : MainState) : MainState :=
  match s.backendProcess with
  | some _ => s
  | none => { backendProcess := some s.nextPid, nextPid := s.nextPid + 1 }

/-- Embedding of `stopBackend`: return early if no handle is held,
otherwise kill the child and clear the handle. -/
def stopBackend (s : MainState) : MainState :=
  match s.backendProcess with
  | none => s
  | some _ => { s with backendProcess := none }

/-- Embedding of `ipcMain.handle("backend:status")`:
`{ running: Boolean(backendProcess) }`. -/
def backendStatusHandler (s : MainState) : BackendStatus :=
  ⟨s.backendProcess.isSome⟩

/-- Embedding of `ipcMain.handle("backend:restart")`: `stopBackend()` then
`startBackend()`, returning the status read from the new state. -/
def backendRestartHandler (s : MainState) : MainState × BackendStatus :=
  let s₂ := startBackend (stopBackend s)
  (s₂, ⟨s₂.backendProcess.isSome⟩)

/-- After `restart`, a process handle is always held. -/
lemma restart_running (s : MainState) :
    ((backendRestartHandler s).1).backendProcess.isSome = true := by
  cases h : s.backendProcess <;>
    simp [backendRestartHandler, startBackend, stopBackend, h]

/-- C4.  `restart()` is idempotent on the observable state: every call
leaves a running backend (`status().running` is true, and the returned
status says so), and a second restart yields the same observable state —
a held process handle and the same reported status — as one. -/
theorem restart_idempotent_observable (s : MainState) :
    (backendStatusHandler (backendRestartHandler s).1).running = true ∧
    (backendRestartHandler s).2.running = true ∧
    backendStatusHandler (backendRestartHandler (backendRestartHandler s).1).1 =
      backendStatusHandler (backendRestartHandler s).1 ∧
    (backendRestartHandler (backendRestartHandler s).1).2 =
      (backendRestartHandler s).2 := by
  have h1 := restart_running s
  have h2 := restart_running (backendRestartHandler s).1
  refine ⟨?_, ?_, ?_, ?_⟩ <;>
    simp [backendStatusHandler, backendRestartHandler] at h1 h2 ⊢ <;>
    simp [h1, h2]

/-! ## Preload bridge (electron/preload.cjs) and registered IPC channels -/

/-- The operations exposed on `window.backend` by
`contextBridge.exposeInMainWorld`, each paired with the IPC channel it
invokes. -/
def backendBridge : List (String × String) :=
  [("status", "backend:status"),
   ("restart", "backend:restart"),
   ("data", "backend:data")]

/-- The IPC channels for which the main process registers a handler via
`ipcMain.handle`. -/
def registeredIpcChannels : List String :=
  ["backend:status", "backend:restart", "backend:data"]

/-- C5.  The control surface exposed to the renderer is exactly the three
operations status, restart and data — nothing else is on the bridge — and
each invokes a channel the main process handles. -/
theorem bridge_exactly_three_ops :
    backendBridge.map Prod.fst = ["status", "restart", "data"] ∧
    (backendBridge.all fun op => registeredIpcChannels.contains op.2) = true := by
  decide

/-! ## Session Manager low-battery alert policy -/

/-- Modelled from the spec: the Session Manager low-battery policy of the
Rust backend, whose source (`crates/desktop/src-tauri`) is not included
under `src/`.  After each battery update with minimum bud level `level`:
if `level < threshold` and `lowBatteryAlerted` is false, set it true and
emit an alert; while it stays true nothing re-emits; it resets to false on
recovery above `threshold + hysteresis`.  The result is the pair (new
`lowBatteryAlerted`, alert emitted this update). -/
def stepAlert (threshold hysteresis : ℚ) (alerted : Bool) (level : ℚ) :
    Bool × Bool :=
  if level < threshold then
    if alerted then (true, false) else (true, true)
  else if threshold + hysteresis < level then (false, false)
  else (alerted, false)

/-- The trace of `stepAlert` over a battery-level sequence: after each
update the pair (current `lowBatteryAlerted`, alert emitted). -/
def alertHistory (threshold hysteresis : ℚ) :
    Bool → List ℚ → List (Bool × Bool)
  | _, [] => []
  | alerted, level :: rest =>
    let r := stepAlert threshold hysteresis alerted level
    r :: alertHistory threshold hysteresis r.1 rest

/-- C7.  With threshold 20 (and any hysteresis margin small enough that
22 counts as recovery), the level sequence [25, 18, 15, 22] yields the
`lowBatteryAlerted` sequence [false, true, true, false], and the alert is
emitted exactly once, at 18. -/
theorem lowBattery_alert_sequence (h : ℚ) (_h0 : 0 ≤ h) (h2 : h < 2) :
    (alertHistory 20 h false [25, 18, 15, 22]).map Prod.fst =
      [false, true, true, false] ∧
    (alertHistory 20 h false [25, 18, 15, 22]).map Prod.snd =
      [false, true, false, false] := by
  have n25 : ¬((25 : ℚ) < 20) := by norm_num
  have n22 : ¬((22 : ℚ) < 20) := by norm_num
  have y18 : (18 : ℚ) < 20 := by norm_num
  have y15 : (15 : ℚ) < 20 := by norm_num
  have r25 : (20 : ℚ) + h < 25 := by linarith
  have r22 : (20 : ℚ) + h < 22 := by linarith
  constructor <;>
    simp [alertHistory, stepAlert, n25, n22, y18, y15, r25, r22]

/-- Witness for C7 with hysteresis margin 1. -/
theorem lowBattery_alert_sequence_witness :
    (alertHistory 20 1 false [25, 18, 15, 22]).map Prod.fst =
      [false, true, true, false] ∧
    (alertHistory 20 1 false [25, 18, 15, 22]).map Prod.snd =
      [false, true, false, false] :=
  lowBattery_alert_sequence 1 (by norm_num) (by norm_num)

/-! ## State Publisher atomicity -/

/-- Modelled from the spec: the State Publisher of the Rust backend, whose
source is not included under `src/`.  The spec prescribes
write-to-temp-then-rename: the full serialized document is built in
memory, written to a temporary path, and then renamed over the state path
in one visible step.  The file system holds the state path and the
temporary path. -/
structure PublisherFs where
  stateFile : Option String
  tempFile : Option String
deriving DecidableEq

/-- First publisher step: write the full serialized document to the
temporary path. -/
def writeTemp (doc : String) (fs : PublisherFs) : PublisherFs :=
  { fs with tempFile := some doc }

/-- Second publisher step: atomically rename the temporary file over the
state path. -/
def renameTemp (fs : PublisherFs) : PublisherFs :=
  match fs.tempFile with
  | some d => { stateFile := some d, tempFile := none }
  | none => fs

/-- A publish is the two steps in order. -/
def publishSteps (doc : String) : List (PublisherFs → PublisherFs) :=
  [writeTemp doc, renameTemp]

/-- Run a list of file-system steps in order. -/
def runSteps (steps : List (PublisherFs → PublisherFs)) (fs : PublisherFs) :
    PublisherFs :=
  steps.foldl (fun s f => f s) fs

/-- What the shell's `data()` reader observes of the state path. -/
def observeFile (fs : PublisherFs) : FileState :=
  match fs.stateFile with
  | none => FileState.absent
  | some raw => FileState.content raw

/-- C8.  Publication is atomic: a reader interrupting the publish after
any number of its steps sees either the old document or the new one in
full, never a half-written file, so `data()` run concurrently parses the
old or the new document whenever both parse. -/
theorem publish_atomic (parse : String → Option BackendDoc)
    (oldDoc newDoc : String) (dOld dNew : BackendDoc) (n : ℕ)
    (hOld : parse oldDoc = some dOld) (hNew : parse newDoc = some dNew) :
    ((runSteps ((publishSteps newDoc).take n)
        ⟨some oldDoc, none⟩).stateFile = some oldDoc ∨
     (runSteps ((publishSteps newDoc).take n)
        ⟨some oldDoc, none⟩).stateFile = some newDoc) ∧
    (backendDataHandler parse (observeFile (runSteps
        ((publishSteps newDoc).take n) ⟨some oldDoc, none⟩)) = some dOld ∨
     backendDataHandler parse (observeFile (runSteps
        ((publishSteps newDoc).take n) ⟨some oldDoc, none⟩)) = some dNew) := by
  match n with
  | 0 =>
    constructor
    · left; rfl
    · left; simpa [runSteps, observeFile, backendDataHandler]
  | 1 =>
    constructor
    · left; rfl
    · left
      simpa [runSteps, publishSteps, writeTemp, observeFile,
        backendDataHandler]
  | (m + 2) =>
    constructor
    · right
      simp [runSteps, publishSteps, List.take_succ_cons, writeTemp,
        renameTemp]
    · right
      simpa [runSteps, publishSteps, List.take_succ_cons, writeTemp,
        renameTemp, observeFile, backendDataHandler]

/-- Witness for C8: a reader between the two steps still parses the old
document. -/
theorem publish_atomic_witness :
    backendDataHandler (fun _ => some sampleDoc)
      (observeFile (runSteps ((publishSteps "new").take 1)
        ⟨some "old", none⟩)) = some sampleDoc ∨
    backendDataHandler (fun _ => some sampleDoc)
      (observeFile (runSteps ((publishSteps "new").take 1)
        ⟨some "old", none⟩)) = some sampleDoc :=
  (publish_atomic (fun _ => some sampleDoc)
    "old" "new" sampleDoc sampleDoc 1 rfl rfl).2

/-! ## ASCII font fitting (App.tsx lines 149–165) -/

/-- The lines of the ASCII art: `ascii.split("\n")`. -/
def linesOf (ascii : String) : List String := ascii.splitOn "\n"

/-- Length of the longest line, as computed by
`lines.reduce((max, line) => Math.max(max, line.length), 1)`. -/
def longestLineOf (ascii : String) : ℚ :=
  (linesOf ascii).foldl (fun m line => max m (line.length : ℚ)) 1

/-- Embedding of the `asciiFontSizePx` memo: fit the font to the usable
width and height (each bounded below by 120 and 60), then clamp the
smaller candidate to [4.5, 12].  `headerH` stands for
`headerRef.current?.offsetHeight ?? 35`; the glyph width factor is 0.62
and the line height factor 0.95. -/
def asciiFontSizePx (ascii : String)
    (deviceSectionWidth deviceSectionHeight headerH : ℚ) : ℚ :=
  let longestLine := longestLineOf ascii
  let lineCount : ℚ := (linesOf ascii).length
  let usableWidth := max 120 (deviceSectionWidth - 40)
  let widthFitted := usableWidth / (longestLine * (62 / 100))
  let usableHeight := max 60 (deviceSectionHeight - headerH - 20)
  let heightFitted := usableHeight / (lineCount * (95 / 100))
  max (9 / 2) (min 12 (min widthFitted heightFitted))

/-- A `foldl` of `max` never drops below its initial accumulator. -/
lemma le_foldl_max (l : List String) :
    ∀ a : ℚ, a ≤ l.foldl (fun m line => max m (line.length : ℚ)) a := by
  induction l with
  | nil => intro a; simp
  | cons x xs ih =>
    intro a
    rw [List.foldl_cons]
    exact le_trans (le_max_left a (x.length : ℚ)) (ih _)

/-- C10.  For every ASCII string, section width and height, and header
height, the computed font size lies in [4.5, 12]; moreover the
longest-line accumulator is at least 1, so the width denominator is
positive and the fitted candidates are well defined. -/
theorem asciiFontSize_bounds (ascii : String) (w h headerH : ℚ) :
    9 / 2 ≤ asciiFontSizePx ascii w h headerH ∧
    asciiFontSizePx ascii w h headerH ≤ 12 ∧
    1 ≤ longestLineOf ascii := by
  refine ⟨le_max_left _ _, ?_, le_foldl_max _ 1⟩
  exact max_le (by norm_num) (min_le_left _ _)
